import Mathlib

/-!
# Verification of the delta/differential loading subsystem (`src/delta_loader.py`)

Shallow embedding of the delta-detection and staging-load algorithm of
`DeltaLoader`.  A pandas DataFrame read with `dtype=object` is modelled as a
list of rows, where a row is the ordered association list of
(column name, string value) pairs; the CSV filesystem is an association list
from paths to data frames; the PostgreSQL staging table is a list of staged
rows carrying the entity columns plus the three load-metadata columns
(`_load_timestamp`, `_load_type`, `_is_deleted`).

Library functions that the Python code calls (`hashlib.md5`,
`pd.util.hash_pandas_object`) are modelled as fixed deterministic executable
hash functions: no property proved below depends on the internals of these
hashes beyond the structure the source gives them (what is fed into them, and
that the dataset hash is a per-row hash that also covers the row's positional
index, summed over the frame).
-/

namespace DeltaLoad

/-- A row of a DataFrame: the (column, value) pairs in column order.
All cell values are strings, matching `pd.read_csv(..., dtype=object)`. -/
abbrev Row := List (String × String)

/-- A DataFrame: the column names plus the rows. -/
structure DataFrame where
  cols : List String
  rows : List Row
  deriving Repr, DecidableEq

/-- Cell lookup `row[col]`, as used by `df[pk].astype(str)`; the values are
already strings, so `astype(str)` is the identity.  A missing column yields
`""` (the Python code would raise a `KeyError`; every run considered below has
the primary-key columns present). -/
def lookupCol (r : Row) (c : String) : String :=
  ((r.find? fun p => p.1 = c).map Prod.snd).getD ""

/-- Two strings with the same character data are equal. -/
theorem string_eq_of_data_eq {a b : String} (h : a.data = b.data) : a = b := by
  cases a; cases b; exact congrArg String.mk h

/-- Strict lexicographic comparison of strings by their character lists
(Python compares strings code point by code point; `String.lt` is defined the
same way, but through `String.ltb`, which the kernel cannot evaluate, so the
comparison is stated on the underlying character lists). -/
def strLt (a b : String) : Prop := a.data < b.data

instance : DecidableRel strLt := fun a b => by
  unfold strLt; infer_instance

/-- Lexicographic comparison on (field, value) pairs: Python tuple ordering,
as used by `sorted(row.items())`. -/
def pairLe (a b : String × String) : Prop :=
  strLt a.1 b.1 ∨ (a.1 = b.1 ∧ (strLt a.2 b.2 ∨ a.2 = b.2))

instance : DecidableRel pairLe := fun a b => by
  unfold pairLe; infer_instance

theorem strLt_total (a b : String) : strLt a b ∨ a = b ∨ strLt b a := by
  rcases lt_trichotomy a.data b.data with h | h | h
  · exact Or.inl h
  · exact Or.inr (Or.inl (string_eq_of_data_eq h))
  · exact Or.inr (Or.inr h)

instance : IsTotal (String × String) pairLe where
  total a b := by
    rcases strLt_total a.1 b.1 with h | h | h
    · exact Or.inl (Or.inl h)
    · rcases strLt_total a.2 b.2 with h2 | h2 | h2
      · exact Or.inl (Or.inr ⟨h, Or.inl h2⟩)
      · exact Or.inl (Or.inr ⟨h, Or.inr h2⟩)
      · exact Or.inr (Or.inr ⟨h.symm, Or.inl h2⟩)
    · exact Or.inr (Or.inl h)

theorem strLt_trans {a b c : String} (h1 : strLt a b) (h2 : strLt b c) : strLt a c :=
  lt_trans h1 h2

theorem strLt_irrefl (a : String) : ¬ strLt a a := lt_irrefl a.data

instance : IsTrans (String × String) pairLe where
  trans a b c hab hbc := by
    rcases hab with h1 | ⟨h1, h1v⟩ <;> rcases hbc with h2 | ⟨h2, h2v⟩
    · exact Or.inl (strLt_trans h1 h2)
    · exact Or.inl (h2 ▸ h1)
    · exact Or.inl (h1 ▸ h2)
    · refine Or.inr ⟨h1.trans h2, ?_⟩
      rcases h1v with h1v | h1v <;> rcases h2v with h2v | h2v
      · exact Or.inl (strLt_trans h1v h2v)
      · exact Or.inl (h2v ▸ h1v)
      · exact Or.inl (h1v ▸ h2v)
      · exact Or.inr (h1v.trans h2v)

instance : IsAntisymm (String × String) pairLe where
  antisymm a b hab hba := by
    rcases hab with h1 | ⟨h1, h1v⟩
    · rcases hba with h2 | ⟨h2, h2v⟩
      · exact absurd (strLt_trans h1 h2) (strLt_irrefl _)
      · exact absurd h1 (h2 ▸ strLt_irrefl _)
    · rcases hba with h2 | ⟨h2, h2v⟩
      · exact absurd h2 (h1 ▸ strLt_irrefl _)
      · refine Prod.ext h1 ?_
        rcases h1v with h1v | h1v
        · rcases h2v with h2v | h2v
          · exact absurd (strLt_trans h1v h2v) (strLt_irrefl _)
          · exact absurd h1v (h2v ▸ strLt_irrefl _)
        · exact h1v

/-- `sorted(row.items())`: sort the (field, value) pairs lexicographically.
Python's `sorted` and `List.insertionSort` agree extensionally because the
order is total and antisymmetric, so the sorted list is unique. -/
def sortPairs (r : Row) : Row :=
  r.insertionSort pairLe

/-- Model of `hashlib.md5(s.encode()).hexdigest()`: a fixed deterministic
function of the input string (a polynomial hash over `2 ^ 128`, standing in
for the MD5 digest; no theorem below depends on which function this is). -/
def md5Hex (s : String) : String :=
  toString (s.data.foldl (fun h c => (h * 131 + c.toNat + 1) % 2 ^ 128) 5381)

/-- `DeltaLoader.compute_record_fingerprint`: serialize the sorted
(field, value) pairs of the row and hash the resulting string
(`row_str = str(sorted(row.items())); hashlib.md5(row_str.encode()).hexdigest()`).
The exact textual serialization of the pair list is immaterial to every
property proved below. -/
def compute_record_fingerprint (r : Row) : String :=
  md5Hex (toString (sortPairs r))

/-- Model of the per-cell hash underlying `pd.util.hash_pandas_object`
(pandas hashes each value with a keyed SipHash; here a fixed FNV-style
polynomial hash over `2 ^ 64` stands in). -/
def hashCell (s : String) : Nat :=
  s.data.foldl (fun h c => (h * 1099511628211 + c.toNat + 1) % 2 ^ 64) 14695981039346656037

/-- Hash of one row's cell contents, mixing the per-cell hashes. -/
def rowContentHash (r : Row) : Nat :=
  r.foldl (fun h p => (h * 31 + hashCell p.1 + 3 * hashCell p.2 + 7) % 2 ^ 64) 0

/-- Model of the per-row value of `pd.util.hash_pandas_object(df)`: with the
default `index=True` the 64-bit hash of a row combines, non-linearly (pandas
mixes them through `combine_hash_arrays`), the hash of the row's index label —
the positional label `i` of the default `RangeIndex` — with the hash of the
row's cell contents; the dependence on the index label is what makes the
summed aggregate order-sensitive. -/
def hash_pandas_object_row (i : Nat) (r : Row) : Nat :=
  ((rowContentHash r + 11400714819323198485) * (hashCell (toString i) + 2654435761)) % 2 ^ 64

/-- `DeltaLoader.compute_dataset_fingerprint`:
`str(pd.util.hash_pandas_object(df).sum())` — the sum, as an unsigned 64-bit
integer (hence modulo `2 ^ 64`), of the per-row hashes of the frame. -/
def compute_dataset_fingerprint (rows : List Row) : String :=
  toString ((rows.enum.map fun p => hash_pandas_object_row p.1 p.2).sum % 2 ^ 64)

/-- `make_composite_key` (local function inside `detect_changes`): with a
single primary-key column the key is `df[pk].astype(str)` — the cell's string
value; with several it is the per-column string values joined with `"_"`. -/
def compositeKey (pks : List String) (r : Row) : String :=
  match pks with
  | [pk] => lookupCol r pk
  | _ => String.intercalate "_" (pks.map (lookupCol r))

/-- `DeltaResult` (the pandas DataFrames become lists of rows; the
`detection_timestamp` field, never read by any code under verification, is
omitted). -/
structure DeltaResult where
  entity_type : String
  new_records : List Row
  modified_records : List Row
  deleted_record_ids : List String
  unchanged_record_ids : List String
  deriving Repr, DecidableEq

/-- `DeltaResult.has_changes`: any new, modified or deleted records. -/
def DeltaResult.has_changes (d : DeltaResult) : Bool :=
  decide (0 < d.new_records.length) || decide (0 < d.modified_records.length) ||
    decide (0 < d.deleted_record_ids.length)

/-- The fingerprint compared for a common key: the fingerprint of the first
row of `df` whose composite key is `k`
(`df[df['_composite_key'] == key]['_record_fingerprint'].iloc[0]`);
`none` when no row matches (never the case for a common key). -/
def firstFingerprintAt (pks : List String) (df : List Row) (k : String) : Option String :=
  ((df.filter fun r => decide (compositeKey pks r = k)).head?).map compute_record_fingerprint

/-- `new_records = current_df[current_with_fp['_composite_key'].isin(new_keys)]`
with `new_keys = current_keys - previous_keys`: a current row is kept iff its
composite key is not the key of any previous row. -/
def newRecordsOf (pks : List String) (current previous : List Row) : List Row :=
  current.filter fun r =>
    decide (compositeKey pks r ∉ previous.map (compositeKey pks))

/-- `deleted_keys = previous_keys - current_keys`; the Python value is a
`set`, modelled as the deduplicated list in first-occurrence order. -/
def deletedKeysOf (pks : List String) (current previous : List Row) : List String :=
  ((previous.map (compositeKey pks)).filter fun k =>
    decide (k ∉ current.map (compositeKey pks))).dedup

/-- `common_keys = current_keys & previous_keys`, a `set` modelled as the
deduplicated list in first-occurrence order of the current snapshot; no claim
checked below is sensitive to the iteration order of this set. -/
def commonKeysOf (pks : List String) (current previous : List Row) : List String :=
  ((current.map (compositeKey pks)).filter fun k =>
    decide (k ∈ previous.map (compositeKey pks))).dedup

/-- The common keys whose first current and first previous fingerprints
differ (the `if current_fp != previous_fp` branch of the loop). -/
def modifiedKeysOf (pks : List String) (current previous : List Row) : List String :=
  (commonKeysOf pks current previous).filter fun k =>
    decide (firstFingerprintAt pks current k ≠ firstFingerprintAt pks previous k)

/-- `unchanged_keys`: the common keys whose fingerprints agree (the `else`
branch of the loop). -/
def unchangedKeysOf (pks : List String) (current previous : List Row) : List String :=
  (commonKeysOf pks current previous).filter fun k =>
    decide (firstFingerprintAt pks current k = firstFingerprintAt pks previous k)

/-- `modified_records = pd.concat(modified_records_list)`: for each modified
key, all current rows carrying that key
(`current_df[current_with_fp['_composite_key'] == key]`), concatenated. -/
def modifiedRecordsOf (pks : List String) (current previous : List Row) : List Row :=
  ((modifiedKeysOf pks current previous).map fun k =>
    current.filter fun r => decide (compositeKey pks r = k)).flatten

/-- The diffing part of `DeltaLoader.detect_changes` (lines 285-361), reached
when a previous snapshot was loaded. -/
def detectCore (entity : String) (pks : List String) (current previous : List Row) :
    DeltaResult :=
  { entity_type := entity
    new_records := newRecordsOf pks current previous
    modified_records := modifiedRecordsOf pks current previous
    deleted_record_ids := deletedKeysOf pks current previous
    unchanged_record_ids := unchangedKeysOf pks current previous }

/-- `LoadState` (the ISO timestamp becomes an abstract clock value `now : Nat`;
the JSON metadata bag keeps only the numeric audit counts the code stores). -/
structure LoadState where
  entity_type : String
  last_load_timestamp : Nat
  last_csv_path : String
  last_row_count : Nat
  last_data_fingerprint : String
  column_schema : List String
  primary_keys : List String
  metadata : List (String × Nat) := []
  deriving Repr, DecidableEq

/-- The CSV filesystem: an association list from paths to parsed frames.
`lookupFs fs p = none` models both `Path(p).exists()` being false and
`pd.read_csv(p)` raising. -/
def lookupFs (fs : List (String × DataFrame)) (path : String) : Option DataFrame :=
  (fs.find? fun p => decide (p.1 = path)).map Prod.snd

/-- `set(schema_columns) - set(current_df.columns)` of the schema validation. -/
def missingCols (schemaCols : List String) (df : DataFrame) : List String :=
  (schemaCols.filter fun c => decide (c ∉ df.cols)).dedup

/-- The `LoadState(...)` constructor calls inside `detect_changes`. -/
def mkLoadState (entity : String) (pks : List String) (csvPath : String) (df : DataFrame)
    (schemaCols : List String) (now : Nat) (meta : List (String × Nat)) : LoadState :=
  { entity_type := entity
    last_load_timestamp := now
    last_csv_path := csvPath
    last_row_count := df.rows.length
    last_data_fingerprint := compute_dataset_fingerprint df.rows
    column_schema := schemaCols
    primary_keys := pks
    metadata := meta }

/-- `DeltaLoader.detect_changes`.  The pair returned is (detection outcome,
the `LoadState` written by `new_state.save(...)` during the call — `none`
when the call saves no state).  `Except.error` models a raised exception
(`FileNotFoundError` from `pd.read_csv`, or the `ValueError` of the schema
validation); `self.previous_state` is the `previousState` argument. -/
def detect_changes (entity : String) (pks : List String) (previousState : Option LoadState)
    (fs : List (String × DataFrame)) (currentCsv : String) (schemaCols : List String)
    (now : Nat) : Except String DeltaResult × Option LoadState :=
  match lookupFs fs currentCsv with
  | none => (Except.error ("File not found: " ++ currentCsv), none)
  | some currentDf =>
    if missingCols schemaCols currentDf ≠ [] then
      (Except.error ("Missing columns in CSV: " ++ toString (missingCols schemaCols currentDf)),
        none)
    else
      match previousState with
      | none =>
        let st := mkLoadState entity pks currentCsv currentDf schemaCols now []
        (Except.ok
          { entity_type := entity
            new_records := currentDf.rows
            modified_records := []
            deleted_record_ids := []
            unchanged_record_ids := [] }, some st)
      | some prevState =>
        match lookupFs fs prevState.last_csv_path with
        | none =>
          (Except.ok
            { entity_type := entity
              new_records := currentDf.rows
              modified_records := []
              deleted_record_ids := []
              unchanged_record_ids := [] }, none)
        | some previousDf =>
          let d := detectCore entity pks currentDf.rows previousDf.rows
          let st := mkLoadState entity pks currentCsv currentDf schemaCols now
            [("new_count", d.new_records.length),
             ("modified_count", d.modified_records.length),
             ("deleted_count", d.deleted_record_ids.length)]
          (Except.ok d, some st)

/-- A row of the staging table: the entity columns plus the load-metadata
columns `_load_timestamp`, `_load_type`, `_is_deleted`. -/
structure StagedRow where
  data : Row
  load_timestamp : Nat
  load_type : String
  is_deleted : Bool
  deriving Repr, DecidableEq

/-- The new-records phase of `load_delta_to_staging`: `to_sql(if_exists=
append)` of the new rows with metadata (load type "insert", not deleted). -/
def insertNewRecords (newRecords : List Row) (now : Nat) (table : List StagedRow) :
    List StagedRow :=
  table ++ newRecords.map fun r =>
    { data := r, load_timestamp := now, load_type := "insert", is_deleted := false }

/-- The modified-records phase: `DELETE FROM t WHERE pk_col = ANY(modified_ids)`
with `modified_ids = delta.modified_records[pk_col].tolist()`, then append the
current versions with metadata (load type "update", not deleted). -/
def updateModifiedRecords (pkCol : String) (modifiedRecords : List Row) (now : Nat)
    (table : List StagedRow) : List StagedRow :=
  let modifiedIds := modifiedRecords.map fun r => lookupCol r pkCol
  (table.filter fun sr => decide (lookupCol sr.data pkCol ∉ modifiedIds)) ++
    modifiedRecords.map fun r =>
      { data := r, load_timestamp := now, load_type := "update", is_deleted := false }

/-- The deleted-records phase: `UPDATE t SET _is_deleted = TRUE,
_load_timestamp = now, _load_type = 'delete' WHERE pk_col = ANY(deleted_ids)`
— a soft delete that rewrites matching rows in place and removes none. -/
def markDeletedRecords (pkCol : String) (deletedIds : List String) (now : Nat)
    (table : List StagedRow) : List StagedRow :=
  table.map fun sr =>
    if lookupCol sr.data pkCol ∈ deletedIds then
      { sr with is_deleted := true, load_timestamp := now, load_type := "delete" }
    else sr

/-- The `if len(delta.new_records) > 0:` block of `load_delta_to_staging`. -/
def insertNewPhase (delta : DeltaResult) (now : Nat) (table : List StagedRow) :
    List StagedRow :=
  if 0 < delta.new_records.length then insertNewRecords delta.new_records now table
  else table

/-- The `if len(delta.modified_records) > 0:` block of
`load_delta_to_staging`. -/
def updateModifiedPhase (pkCol : String) (delta : DeltaResult) (now : Nat)
    (table : List StagedRow) : List StagedRow :=
  if 0 < delta.modified_records.length then
    updateModifiedRecords pkCol delta.modified_records now table
  else table

/-- The `if len(delta.deleted_record_ids) > 0:` block of
`load_delta_to_staging`. -/
def markDeletedPhase (pkCol : String) (delta : DeltaResult) (now : Nat)
    (table : List StagedRow) : List StagedRow :=
  if 0 < delta.deleted_record_ids.length then
    markDeletedRecords pkCol delta.deleted_record_ids now table
  else table

/-- `DeltaLoader.load_delta_to_staging`: returns the staging table after the
call.  `pk_col = self.primary_keys[0]` is the head of `pks` ("Assuming single
PK for simplicity" in the source); the three phases run in order — insert new,
replace modified, soft-flag deleted — each only when its record set is
non-empty, and nothing at all happens when `delta.has_changes` is false. -/
def load_delta_to_staging (pks : List String) (delta : DeltaResult) (now : Nat)
    (table : List StagedRow) : List StagedRow :=
  if delta.has_changes = false then table
  else
    markDeletedPhase (pks.headD "") delta now
      (updateModifiedPhase (pks.headD "") delta now (insertNewPhase delta now table))

end DeltaLoad

namespace DeltaLoad

theorem sortPairs_eq_of_perm {r₁ r₂ : Row} (h : r₁.Perm r₂) :
    sortPairs r₁ = sortPairs r₂ := by
  refine List.eq_of_perm_of_sorted ?_ (List.sorted_insertionSort pairLe r₁)
    (List.sorted_insertionSort pairLe r₂)
  exact (List.perm_insertionSort pairLe r₁).trans
    (h.trans (List.perm_insertionSort pairLe r₂).symm)

section MembershipLemmas

variable (pks : List String) (current previous : List Row) (x : String)

theorem mem_map_key_newRecordsOf :
    x ∈ (newRecordsOf pks current previous).map (compositeKey pks) ↔
      x ∈ current.map (compositeKey pks) ∧ x ∉ previous.map (compositeKey pks) := by
  simp only [newRecordsOf, List.mem_map, List.mem_filter, decide_eq_true_eq]
  constructor
  · rintro ⟨r, ⟨hr, hnp⟩, rfl⟩
    exact ⟨⟨r, hr, rfl⟩, hnp⟩
  · rintro ⟨⟨r, hr, rfl⟩, hnp⟩
    exact ⟨r, ⟨hr, hnp⟩, rfl⟩

theorem mem_deletedKeysOf :
    x ∈ deletedKeysOf pks current previous ↔
      x ∈ previous.map (compositeKey pks) ∧ x ∉ current.map (compositeKey pks) := by
  simp [deletedKeysOf, List.mem_dedup, List.mem_filter]

theorem mem_commonKeysOf :
    x ∈ commonKeysOf pks current previous ↔
      x ∈ current.map (compositeKey pks) ∧ x ∈ previous.map (compositeKey pks) := by
  simp [commonKeysOf, List.mem_dedup, List.mem_filter]

theorem mem_modifiedKeysOf :
    x ∈ modifiedKeysOf pks current previous ↔
      (x ∈ current.map (compositeKey pks) ∧ x ∈ previous.map (compositeKey pks)) ∧
        firstFingerprintAt pks current x ≠ firstFingerprintAt pks previous x := by
  rw [modifiedKeysOf, List.mem_filter, mem_commonKeysOf]
  simp

theorem mem_unchangedKeysOf :
    x ∈ unchangedKeysOf pks current previous ↔
      (x ∈ current.map (compositeKey pks) ∧ x ∈ previous.map (compositeKey pks)) ∧
        firstFingerprintAt pks current x = firstFingerprintAt pks previous x := by
  rw [unchangedKeysOf, List.mem_filter, mem_commonKeysOf]
  simp

theorem mem_map_key_modifiedRecordsOf :
    x ∈ (modifiedRecordsOf pks current previous).map (compositeKey pks) ↔
      x ∈ modifiedKeysOf pks current previous := by
  simp only [modifiedRecordsOf, List.mem_map, List.mem_flatten, decide_eq_true_eq,
    List.mem_filter]
  constructor
  · rintro ⟨r, ⟨l, ⟨k, hk, rfl⟩, hr⟩, rfl⟩
    rcases List.mem_filter.mp hr with ⟨-, hkey⟩
    rwa [of_decide_eq_true hkey]
  · intro hx
    have hcur : x ∈ current.map (compositeKey pks) :=
      ((mem_modifiedKeysOf pks current previous x).mp hx).1.1
    rcases List.mem_map.mp hcur with ⟨r, hr, rfl⟩
    exact ⟨r, ⟨current.filter fun s => decide (compositeKey pks s = compositeKey pks r),
      ⟨compositeKey pks r, hx, rfl⟩, List.mem_filter.mpr ⟨hr, by simp⟩⟩, rfl⟩

end MembershipLemmas

/-- **C1.**  For every detection run of `detect_changes` that compares a
current snapshot against a retrievable previous snapshot (`detectCore` is
exactly the branch of `detect_changes` taken in that case), the four output
key sets — keys of `new_records`, keys of `modified_records`,
`deleted_record_ids`, `unchanged_record_ids` — are pairwise disjoint, and
their union equals the union of the composite keys of the current and the
previous snapshot. -/
theorem detect_changes_partition (entity : String) (pks : List String)
    (current previous : List Row) :
    let d := detectCore entity pks current previous
    let newK := (d.new_records.map (compositeKey pks)).toFinset
    let modK := (d.modified_records.map (compositeKey pks)).toFinset
    let delK := d.deleted_record_ids.toFinset
    let uncK := d.unchanged_record_ids.toFinset
    let curK := (current.map (compositeKey pks)).toFinset
    let prevK := (previous.map (compositeKey pks)).toFinset
    (newK ∩ modK = ∅ ∧ newK ∩ delK = ∅ ∧ newK ∩ uncK = ∅ ∧
      modK ∩ delK = ∅ ∧ modK ∩ uncK = ∅ ∧ delK ∩ uncK = ∅) ∧
    newK ∪ modK ∪ delK ∪ uncK = curK ∪ prevK := by
  intro d newK modK delK uncK curK prevK
  have hnew : ∀ x, x ∈ newK ↔
      x ∈ current.map (compositeKey pks) ∧ x ∉ previous.map (compositeKey pks) := by
    intro x
    rw [List.mem_toFinset]
    exact mem_map_key_newRecordsOf pks current previous x
  have hmod : ∀ x, x ∈ modK ↔
      (x ∈ current.map (compositeKey pks) ∧ x ∈ previous.map (compositeKey pks)) ∧
        firstFingerprintAt pks current x ≠ firstFingerprintAt pks previous x := by
    intro x
    rw [List.mem_toFinset]
    exact (mem_map_key_modifiedRecordsOf pks current previous x).trans
      (mem_modifiedKeysOf pks current previous x)
  have hdel : ∀ x, x ∈ delK ↔
      x ∈ previous.map (compositeKey pks) ∧ x ∉ current.map (compositeKey pks) := by
    intro x
    rw [List.mem_toFinset]
    exact mem_deletedKeysOf pks current previous x
  have hunc : ∀ x, x ∈ uncK ↔
      (x ∈ current.map (compositeKey pks) ∧ x ∈ previous.map (compositeKey pks)) ∧
        firstFingerprintAt pks current x = firstFingerprintAt pks previous x := by
    intro x
    rw [List.mem_toFinset]
    exact mem_unchangedKeysOf pks current previous x
  have hcur : ∀ x, x ∈ curK ↔ x ∈ current.map (compositeKey pks) := fun x =>
    List.mem_toFinset
  have hprev : ∀ x, x ∈ prevK ↔ x ∈ previous.map (compositeKey pks) := fun x =>
    List.mem_toFinset
  refine ⟨⟨?_, ?_, ?_, ?_, ?_, ?_⟩, ?_⟩ <;>
    · apply Finset.ext
      intro x
      simp only [Finset.mem_inter, Finset.mem_union, Finset.not_mem_empty, iff_false,
        Finset.mem_union, hnew x, hmod x, hdel x, hunc x, hcur x, hprev x]
      tauto

/-- **C3.**  On a first run (no prior `LoadState`), `detect_changes` over a
readable, schema-valid snapshot of `N` rows returns every row as new with
empty modified/deleted/unchanged sets, and persists a `LoadState` whose
`last_row_count` equals `N`. -/
theorem detect_changes_first_run (entity : String) (pks : List String)
    (fs : List (String × DataFrame)) (currentCsv : String) (schemaCols : List String)
    (now : Nat) (df : DataFrame)
    (hread : lookupFs fs currentCsv = some df)
    (hschema : missingCols schemaCols df = []) :
    ∃ d st,
      detect_changes entity pks none fs currentCsv schemaCols now =
        (Except.ok d, some st) ∧
      d.new_records.length = df.rows.length ∧ d.modified_records.length = 0 ∧
      d.deleted_record_ids.length = 0 ∧ d.unchanged_record_ids.length = 0 ∧
      st.last_row_count = df.rows.length := by
  refine ⟨{ entity_type := entity, new_records := df.rows, modified_records := [],
            deleted_record_ids := [], unchanged_record_ids := [] },
          mkLoadState entity pks currentCsv df schemaCols now [],
          ?_, rfl, rfl, rfl, rfl, rfl⟩
  simp [detect_changes, hread, hschema]

/-- Witness for C3: a concrete first run over a two-row snapshot. -/
theorem detect_changes_first_run_witness :
    ∃ d st,
      detect_changes "e" ["id"] none
          [("cur.csv", DataFrame.mk ["id"] [[("id", "1")], [("id", "2")]])]
          "cur.csv" ["id"] 3 = (Except.ok d, some st) ∧
      d.new_records.length = 2 ∧ d.modified_records.length = 0 ∧
      d.deleted_record_ids.length = 0 ∧ d.unchanged_record_ids.length = 0 ∧
      st.last_row_count = 2 :=
  detect_changes_first_run "e" ["id"]
    [("cur.csv", DataFrame.mk ["id"] [[("id", "1")], [("id", "2")]])]
    "cur.csv" ["id"] 3 (DataFrame.mk ["id"] [[("id", "1")], [("id", "2")]])
    (by decide) (by decide)

/-- **C4.**  A current snapshot missing an expected column makes
`detect_changes` fail with the schema-validation error, return no
`DeltaResult`, and write no `LoadState`. -/
theorem detect_changes_schema_failure (entity : String) (pks : List String)
    (previousState : Option LoadState) (fs : List (String × DataFrame))
    (currentCsv : String) (schemaCols : List String) (now : Nat) (df : DataFrame)
    (hread : lookupFs fs currentCsv = some df)
    (hmissing : missingCols schemaCols df ≠ []) :
    ∃ msg,
      detect_changes entity pks previousState fs currentCsv schemaCols now =
        (Except.error msg, none) := by
  refine ⟨"Missing columns in CSV: " ++ toString (missingCols schemaCols df), ?_⟩
  simp [detect_changes, hread, hmissing]

/-- Witness for C4: the expected column "name" is absent. -/
theorem detect_changes_schema_failure_witness :
    ∃ msg,
      detect_changes "e" ["id"] none [("cur.csv", DataFrame.mk ["id"] [[("id", "1")]])]
          "cur.csv" ["id", "name"] 3 = (Except.error msg, none) :=
  detect_changes_schema_failure "e" ["id"] none
    [("cur.csv", DataFrame.mk ["id"] [[("id", "1")]])]
    "cur.csv" ["id", "name"] 3 (DataFrame.mk ["id"] [[("id", "1")]])
    (by decide) (by decide)

/-- **C2 counterexample.**  A concrete run with a prior `LoadState` whose
referenced snapshot `"prev.csv"` is not on the filesystem: `detect_changes`
succeeds and classifies the current row as new, but the state component of
the outcome is `none` — no fresh `LoadState` is written on this path, which
refutes the claim that one is persisted before returning. -/
theorem detect_changes_missing_prev_counterexample :
    (detect_changes "e" ["id"]
        (some { entity_type := "e", last_load_timestamp := 0, last_csv_path := "prev.csv",
                last_row_count := 1, last_data_fingerprint := "", column_schema := ["id"],
                primary_keys := ["id"], metadata := [] })
        [("cur.csv", DataFrame.mk ["id"] [[("id", "1")]])] "cur.csv" ["id"] 7) =
      (Except.ok { entity_type := "e", new_records := [[("id", "1")]],
                   modified_records := [], deleted_record_ids := [],
                   unchanged_record_ids := [] }, none) := by
  rfl

/-- **C2 (amended).**  When a prior `LoadState` exists but its referenced
previous snapshot cannot be located, `detect_changes` succeeds, classifies
every current row as new with empty modified and deleted sets, and writes no
`LoadState` at all on this path (the stale prior state is left in place; the
source returns before reaching any `new_state.save` call). -/
theorem detect_changes_missing_prev_fallback (entity : String) (pks : List String)
    (st0 : LoadState) (fs : List (String × DataFrame)) (currentCsv : String)
    (schemaCols : List String) (now : Nat) (df : DataFrame)
    (hread : lookupFs fs currentCsv = some df)
    (hschema : missingCols schemaCols df = [])
    (hmiss : lookupFs fs st0.last_csv_path = none) :
    detect_changes entity pks (some st0) fs currentCsv schemaCols now =
      (Except.ok { entity_type := entity, new_records := df.rows, modified_records := [],
                   deleted_record_ids := [], unchanged_record_ids := [] }, none) := by
  simp [detect_changes, hread, hschema, hmiss]

/-- Witness for the amended C2, at the counterexample's input. -/
theorem detect_changes_missing_prev_fallback_witness :
    detect_changes "e" ["id"]
        (some { entity_type := "e", last_load_timestamp := 0, last_csv_path := "prev2.csv",
                last_row_count := 1, last_data_fingerprint := "", column_schema := ["id"],
                primary_keys := ["id"], metadata := [] })
        [("cur.csv", DataFrame.mk ["id"] [[("id", "1")]])] "cur.csv" ["id"] 7 =
      (Except.ok { entity_type := "e", new_records := [[("id", "1")]],
                   modified_records := [], deleted_record_ids := [],
                   unchanged_record_ids := [] }, none) :=
  detect_changes_missing_prev_fallback "e" ["id"]
    { entity_type := "e", last_load_timestamp := 0, last_csv_path := "prev2.csv",
      last_row_count := 1, last_data_fingerprint := "", column_schema := ["id"],
      primary_keys := ["id"], metadata := [] }
    [("cur.csv", DataFrame.mk ["id"] [[("id", "1")]])] "cur.csv" ["id"] 7
    (DataFrame.mk ["id"] [[("id", "1")]]) (by decide) (by decide) (by decide)

/-- **C5.**  A `DeltaResult` with `has_changes = false` makes
`load_delta_to_staging` a no-op: the staging table after the call is exactly
the staging table before it. -/
theorem load_delta_noop (pks : List String) (delta : DeltaResult) (now : Nat)
    (table : List StagedRow) (h : delta.has_changes = false) :
    load_delta_to_staging pks delta now table = table := by
  simp [load_delta_to_staging, h]

/-- Witness for C5: an all-unchanged delta against a one-row staging table. -/
theorem load_delta_noop_witness :
    load_delta_to_staging ["id"]
        { entity_type := "e", new_records := [], modified_records := [],
          deleted_record_ids := [], unchanged_record_ids := ["1"] } 5
        [{ data := [("id", "1")], load_timestamp := 0, load_type := "insert",
           is_deleted := false }] =
      [{ data := [("id", "1")], load_timestamp := 0, load_type := "insert",
         is_deleted := false }] :=
  load_delta_noop ["id"]
    { entity_type := "e", new_records := [], modified_records := [],
      deleted_record_ids := [], unchanged_record_ids := ["1"] } 5
    [{ data := [("id", "1")], load_timestamp := 0, load_type := "insert",
       is_deleted := false }] (by decide)

theorem compositeKey_single (pk : String) (r : Row) :
    compositeKey [pk] r = lookupCol r pk := rfl

theorem mem_insertNewPhase {delta : DeltaResult} {now : Nat} {table : List StagedRow}
    {sr : StagedRow} (h : sr ∈ table) : sr ∈ insertNewPhase delta now table := by
  unfold insertNewPhase
  split
  · exact List.mem_append_left _ h
  · exact h

theorem mem_updateModifiedRecords_of_mem {pkCol : String} {mods : List Row} {now : Nat}
    {table : List StagedRow} {sr : StagedRow} (h : sr ∈ table)
    (hid : lookupCol sr.data pkCol ∉ mods.map fun r => lookupCol r pkCol) :
    sr ∈ updateModifiedRecords pkCol mods now table := by
  unfold updateModifiedRecords
  refine List.mem_append_left _ (List.mem_filter.mpr ⟨h, ?_⟩)
  simpa using hid

theorem mem_updateModifiedPhase {pkCol : String} {delta : DeltaResult} {now : Nat}
    {table : List StagedRow} {sr : StagedRow} (h : sr ∈ table)
    (hid : lookupCol sr.data pkCol ∉ delta.modified_records.map fun r => lookupCol r pkCol) :
    sr ∈ updateModifiedPhase pkCol delta now table := by
  unfold updateModifiedPhase
  split
  · exact mem_updateModifiedRecords_of_mem h hid
  · exact h

theorem mem_markDeletedRecords {pkCol : String} {ids : List String} {now : Nat}
    {table : List StagedRow} {sr : StagedRow} (h : sr ∈ table)
    (hin : lookupCol sr.data pkCol ∈ ids) :
    { sr with is_deleted := true, load_timestamp := now, load_type := "delete" } ∈
      markDeletedRecords pkCol ids now table := by
  unfold markDeletedRecords
  exact List.mem_map.mpr ⟨sr, h, by rw [if_pos hin]⟩

/-- **C6.**  For a delta produced by change detection (single primary key)
that contains a deleted key `k`, and any staging table holding a row whose
primary-key column is `k`: after `load_delta_to_staging` that row still
exists with the deletion flag set, load type `"delete"` and the load
timestamp refreshed to `now`; moreover the deleted-records phase
(`markDeletedRecords`) never changes the number of staged rows — a `deleted`
classification never physically removes a row. -/
theorem load_delta_soft_delete (entity pk : String) (current previous : List Row)
    (k : String) (now : Nat) (table : List StagedRow) (sr : StagedRow)
    (hdel : k ∈ (detectCore entity [pk] current previous).deleted_record_ids)
    (hmem : sr ∈ table) (hk : lookupCol sr.data pk = k) :
    (∃ sr2 ∈ load_delta_to_staging [pk] (detectCore entity [pk] current previous) now table,
        sr2.data = sr.data ∧ sr2.is_deleted = true ∧ sr2.load_type = "delete" ∧
        sr2.load_timestamp = now) ∧
    ∀ (pkCol : String) (ids : List String) (n : Nat) (t : List StagedRow),
      (markDeletedRecords pkCol ids n t).length = t.length := by
  refine ⟨?_, fun pkCol ids n t => List.length_map _ _⟩
  have hne : (detectCore entity [pk] current previous).deleted_record_ids ≠ [] :=
    List.ne_nil_of_mem hdel
  have hlen : 0 < (detectCore entity [pk] current previous).deleted_record_ids.length :=
    List.length_pos.mpr hne
  have hch : ¬ ((detectCore entity [pk] current previous).has_changes = false) := by
    simp [DeltaResult.has_changes, hlen]
  have hkmod : k ∉ (detectCore entity [pk] current previous).modified_records.map
      fun r => lookupCol r pk := by
    intro hkin
    have hkin2 : k ∈ (modifiedRecordsOf [pk] current previous).map (compositeKey [pk]) :=
      hkin
    have h1 := (mem_modifiedKeysOf [pk] current previous k).mp
      ((mem_map_key_modifiedRecordsOf [pk] current previous k).mp hkin2)
    have h2 := (mem_deletedKeysOf [pk] current previous k).mp hdel
    exact h2.2 h1.1.1
  have h1 : sr ∈ insertNewPhase (detectCore entity [pk] current previous) now table :=
    mem_insertNewPhase hmem
  have h2 : sr ∈ updateModifiedPhase pk (detectCore entity [pk] current previous) now
      (insertNewPhase (detectCore entity [pk] current previous) now table) :=
    mem_updateModifiedPhase h1 (by rw [hk]; exact hkmod)
  have h3 :
      { sr with is_deleted := true, load_timestamp := now, load_type := "delete" } ∈
        markDeletedRecords pk
          (detectCore entity [pk] current previous).deleted_record_ids now
          (updateModifiedPhase pk (detectCore entity [pk] current previous) now
            (insertNewPhase (detectCore entity [pk] current previous) now table)) :=
    mem_markDeletedRecords h2 (by rw [hk]; exact hdel)
  have hload : load_delta_to_staging [pk] (detectCore entity [pk] current previous) now
      table =
      markDeletedRecords pk (detectCore entity [pk] current previous).deleted_record_ids
        now
        (updateModifiedPhase pk (detectCore entity [pk] current previous) now
          (insertNewPhase (detectCore entity [pk] current previous) now table)) := by
    unfold load_delta_to_staging markDeletedPhase
    rw [if_neg hch, if_pos hlen]
    rfl
  rw [hload]
  exact ⟨_, h3, rfl, rfl, rfl, rfl⟩

/-- Witness for C6: previous snapshot has row `id = 1`, current snapshot is
empty, so `"1"` is a deleted key; the staging table holds that row. -/
theorem load_delta_soft_delete_witness :
    (∃ sr2 ∈ load_delta_to_staging ["id"]
        (detectCore "e" ["id"] [] [[("id", "1"), ("name", "A")]]) 5
        [{ data := [("id", "1"), ("name", "A")], load_timestamp := 0,
           load_type := "insert", is_deleted := false }],
        sr2.data = [("id", "1"), ("name", "A")] ∧ sr2.is_deleted = true ∧
        sr2.load_type = "delete" ∧ sr2.load_timestamp = 5) ∧
    ∀ (pkCol : String) (ids : List String) (n : Nat) (t : List StagedRow),
      (markDeletedRecords pkCol ids n t).length = t.length :=
  load_delta_soft_delete "e" "id" [] [[("id", "1"), ("name", "A")]] "1" 5
    [{ data := [("id", "1"), ("name", "A")], load_timestamp := 0,
       load_type := "insert", is_deleted := false }]
    { data := [("id", "1"), ("name", "A")], load_timestamp := 0,
      load_type := "insert", is_deleted := false }
    (by decide) (by decide) (by decide)

/-- **C7.**  `compute_record_fingerprint` is deterministic, and it depends
only on the multiset of (field, value) pairs: rows that are permutations of
one another — the same pairs in a different declaration order — receive the
same fingerprint, because the pairs are sorted by field name before
serialization and hashing. -/
theorem compute_record_fingerprint_deterministic_perm :
    (∀ r : Row, compute_record_fingerprint r = compute_record_fingerprint r) ∧
    ∀ r₁ r₂ : Row, r₁.Perm r₂ →
      compute_record_fingerprint r₁ = compute_record_fingerprint r₂ := by
  refine ⟨fun r => rfl, fun r₁ r₂ h => ?_⟩
  unfold compute_record_fingerprint
  rw [sortPairs_eq_of_perm h]

/-- Witness for C7: the same two (field, value) pairs in the two possible
declaration orders hash identically. -/
theorem compute_record_fingerprint_deterministic_perm_witness :
    ([("name", "A"), ("id", "1")] : Row).Perm [("id", "1"), ("name", "A")] ∧
    compute_record_fingerprint [("name", "A"), ("id", "1")] =
      compute_record_fingerprint [("id", "1"), ("name", "A")] :=
  ⟨by decide, compute_record_fingerprint_deterministic_perm.2 _ _ (by decide)⟩

/-- **C8.**  `compute_dataset_fingerprint` — the sum of the per-row hashes of
`pd.util.hash_pandas_object`, whose per-row value covers the row's positional
index label — is order-sensitive: two datasets with the same multiset of rows
in different orders can receive different fingerprints. -/
theorem compute_dataset_fingerprint_order_sensitive :
    ∃ d₁ d₂ : List Row, d₁.Perm d₂ ∧ d₁ ≠ d₂ ∧
      compute_dataset_fingerprint d₁ ≠ compute_dataset_fingerprint d₂ :=
  ⟨[[("id", "1"), ("name", "A")], [("id", "2"), ("name", "B")]],
   [[("id", "2"), ("name", "B")], [("id", "1"), ("name", "A")]],
   by decide, by decide, by decide⟩

/-- **C9.**  The pure-addition scenario: previous snapshot
`[{id: 1, name: A}]`, current `[{id: 1, name: A}, {id: 2, name: B}]`, primary
key `id` — detection returns new `[{id: 2, name: B}]`, no modified, no
deleted, unchanged `["1"]`. -/
theorem detect_changes_pure_addition :
    (detect_changes "e" ["id"]
        (some { entity_type := "e", last_load_timestamp := 0, last_csv_path := "prev.csv",
                last_row_count := 1, last_data_fingerprint := "",
                column_schema := ["id", "name"], primary_keys := ["id"], metadata := [] })
        [("cur.csv", DataFrame.mk ["id", "name"]
            [[("id", "1"), ("name", "A")], [("id", "2"), ("name", "B")]]),
         ("prev.csv", DataFrame.mk ["id", "name"] [[("id", "1"), ("name", "A")]])]
        "cur.csv" ["id", "name"] 9).1 =
      Except.ok { entity_type := "e",
                  new_records := [[("id", "2"), ("name", "B")]],
                  modified_records := [], deleted_record_ids := [],
                  unchanged_record_ids := ["1"] } := by
  rfl

/-- **C10.**  `load_delta_to_staging` matches staged rows by the first
primary-key column only (`pk_col = self.primary_keys[0]`): with several
primary-key columns it behaves exactly as if only the first were configured;
and concretely, a record that `detect_changes` identified as deleted under
the composite key `"1_2"` (columns `a`, `b` joined with `"_"`) is left
completely untouched in staging, because its `a`-column value `"1"` never
equals `"1_2"`. -/
theorem load_delta_first_pk_only :
    (∀ (p₁ p₂ : String) (rest : List String) (delta : DeltaResult) (now : Nat)
        (table : List StagedRow),
        load_delta_to_staging (p₁ :: p₂ :: rest) delta now table =
          load_delta_to_staging [p₁] delta now table) ∧
    (detectCore "e" ["a", "b"] [] [[("a", "1"), ("b", "2")]]).deleted_record_ids =
      ["1_2"] ∧
    load_delta_to_staging ["a", "b"]
        (detectCore "e" ["a", "b"] [] [[("a", "1"), ("b", "2")]]) 5
        [{ data := [("a", "1"), ("b", "2")], load_timestamp := 0,
           load_type := "insert", is_deleted := false }] =
      [{ data := [("a", "1"), ("b", "2")], load_timestamp := 0,
         load_type := "insert", is_deleted := false }] :=
  ⟨fun _ _ _ _ _ _ => rfl, by decide, by decide⟩

end DeltaLoad
